import Mathlib

/-!
Verification development for the WebRTC stream-router signaling core.

The TypeScript sources are shallowly embedded: JavaScript runtime values are
modelled by the inductive type `JVal`, property access that can throw a
`TypeError` (access on `undefined` or `null`) returns `Except JsErr`, the
`??` operator is `JVal.nullish`, JavaScript truthiness is `JVal.truthy`, and
a JSON text on the wire is modelled by the finite record `WireMsg` of the
four fields the codec ever reads or writes (a field whose value would be
`undefined` is omitted by `JSON.stringify`, hence `Option JVal`).

Stateful handlers are embedded as pure functions from an explicit state and
a decoded request to a list of observable effects (media-engine calls,
socket sends, closes, log lines) together with the successor state; an
escaping JavaScript exception is an `Option JsErr` component.  Effects that
happened before a throw are kept, matching JavaScript evaluation order.
-/

/-- Model of a JavaScript runtime value as far as the router manipulates
them: the JSON values plus `undefined`. -/
inductive JVal where
  | undefined
  | null
  | bool (b : Bool)
  | num (n : Int)
  | str (s : String)
  | arr (elems : List JVal)
  | obj (fields : List (String × JVal))
  deriving Repr

/-- Model of a JavaScript exception; the only kind the embedded code can
raise is a `TypeError` (property access on `undefined`/`null`, method call
on `null`). -/
inductive JsErr where
  | typeError
  deriving DecidableEq, Repr

/-- Property access `v.key`: throws `TypeError` on `undefined` and `null`,
yields the field of an object (or `undefined` when absent), and `undefined`
on other primitives. -/
def JVal.get : JVal → String → Except JsErr JVal
  | .undefined, _ => .error .typeError
  | .null, _ => .error .typeError
  | .obj fields, key => .ok ((List.lookup key fields).getD .undefined)
  | _, _ => .ok .undefined

/-- The JavaScript nullish-coalescing operator `v ?? dflt`. -/
def JVal.nullish (v : JVal) (dflt : JVal) : JVal :=
  match v with
  | .undefined => dflt
  | .null => dflt
  | v => v

/-- JavaScript truthiness of a value, as used in `if (x) ...` tests. -/
def JVal.truthy : JVal → Bool
  | .undefined => false
  | .null => false
  | .bool b => b
  | .num n => !(n == 0)
  | .str s => !(s == "")
  | .arr _ => true
  | .obj _ => true

/-- Decoded message object as built by the `SockRequest` constructor of
src/unnamed/part_003 (the `Request` constructor of src/unnamed/part_000 is
line-for-line identical).  Field values are arbitrary JavaScript values;
the TypeScript annotations are not enforced at runtime. -/
structure SockRequest where
  parseError : Bool
  action : JVal
  data : JVal
  id : JVal
  token : JVal
  deriving Repr

/-- Embedding of the `SockRequest` constructor (src/unnamed/part_003 lines
115-132; identical to `Request` in src/unnamed/part_000 lines 40-55).  The
input is the result of `JSON.parse(msg.data)`: `none` when `JSON.parse`
threw a `SyntaxError`, otherwise `some` parsed value.  The constructor sets
`parseError` in the catch block, and afterwards unconditionally evaluates
`parsed.action ?? ""` and the three sibling assignments; when `parsed` is
still `undefined` (parse failure) or is JSON `null`, that property access
throws a `TypeError` out of the constructor. -/
def mkSockRequest (parseResult : Option JVal) : Except JsErr SockRequest := do
  let parseError := parseResult.isNone
  let parsed := parseResult.getD .undefined
  let action ← parsed.get "action"
  let data ← parsed.get "data"
  let id ← parsed.get "id"
  let token ← parsed.get "token"
  return ⟨parseError, action.nullish (.str ""), data.nullish .null,
    id.nullish (.str ""), token.nullish (.str "")⟩

/-- A serialized wire message, identified with the four JSON fields the
codec writes.  `none` means the field is absent from the JSON text (which
is what `JSON.stringify` produces for an `undefined` value). -/
structure WireMsg where
  action : Option JVal
  data : Option JVal
  id : Option JVal
  token : Option JVal
  deriving Repr

/-- Effect of `JSON.stringify` on one object field: an `undefined` value is
omitted from the output, everything else is kept. -/
def jfield (v : JVal) : Option JVal :=
  match v with
  | .undefined => none
  | v => some v

/-- Embedding of `SockResponse.generateGenericMessage` of
src/unnamed/part_003 lines 154-160 (the second `Response` class in the same
file is identical): with `useAuth` the message carries `action`, `data`,
`id` and `token`; without it only `action` and `data`. -/
def SockResponse.generateGenericMessage (action : String) (data : JVal)
    (id : String) (token : String) (useAuth : Bool) : WireMsg :=
  if useAuth then
    ⟨jfield (.str action), jfield data, jfield (.str id), jfield (.str token)⟩
  else
    ⟨jfield (.str action), jfield data, none, none⟩

/-- Embedding of `SockResponse.RESP_OFFER` (src/unnamed/part_003 lines
139-140); `nodeId`/`nodeAuth` stand for the globals `NODE_INSTANCE_NAME`
and `NODE_AUTH`. -/
def SockResponse.RESP_OFFER (nodeId nodeAuth : String) (offer : JVal) : WireMsg :=
  SockResponse.generateGenericMessage "offer" offer nodeId nodeAuth true

/-- Embedding of `SockResponse.RESP_ANSWER` (src/unnamed/part_003 lines
142-143). -/
def SockResponse.RESP_ANSWER (nodeId nodeAuth : String) (ans : JVal) : WireMsg :=
  SockResponse.generateGenericMessage "answer" ans nodeId nodeAuth false

/-- Embedding of `SockResponse.RESP_RENEG` (src/unnamed/part_003 lines
145-146). -/
def SockResponse.RESP_RENEG (nodeId nodeAuth : String) : WireMsg :=
  SockResponse.generateGenericMessage "renegotiate" .null nodeId nodeAuth false

/-- Embedding of `SockResponse.RESP_ICE` (src/unnamed/part_003 lines
148-149). -/
def SockResponse.RESP_ICE (nodeId nodeAuth : String) (ice : JVal) (auth : Bool) : WireMsg :=
  SockResponse.generateGenericMessage "addICE" ice nodeId nodeAuth auth

/-- Embedding of `Response.generateGenericMessage` of src/unnamed/part_000
lines 64-66: every message carries all four fields. -/
def Response000.generateGenericMessage (action : String) (data : JVal)
    (id : String) (token : String) : WireMsg :=
  ⟨jfield (.str action), jfield data, jfield (.str id), jfield (.str token)⟩

/-- Embedding of `Response.generateOfferMessage` of src/unnamed/part_000
lines 68-70; `nodeId`/`nodeAuth` stand for the globals `NODE_ID` and
`NODE_AUTH` (initial values "default" and "testauth"). -/
def Response000.generateOfferMessage (nodeId nodeAuth : String) (offer : JVal) : WireMsg :=
  Response000.generateGenericMessage "offer" offer nodeId nodeAuth

/-- Embedding of `Response.generateAnswerMessage` of src/unnamed/part_000
lines 72-74: the answer always carries `NODE_ID` and `NODE_AUTH`. -/
def Response000.generateAnswerMessage (nodeId nodeAuth : String) (answer : JVal) : WireMsg :=
  Response000.generateGenericMessage "answer" answer nodeId nodeAuth

/-- Embedding of `Response.generateRenegotiateMessage` of
src/unnamed/part_000 lines 76-78. -/
def Response000.generateRenegotiateMessage (nodeId nodeAuth : String) : WireMsg :=
  Response000.generateGenericMessage "renegotiate" .null nodeId nodeAuth

/-- Embedding of `Response.generateIceMessage` of src/unnamed/part_000
lines 80-82. -/
def Response000.generateIceMessage (nodeId nodeAuth : String) (candidate : JVal) : WireMsg :=
  Response000.generateGenericMessage "addICE" candidate nodeId nodeAuth

/-- One optional field of a wire message rendered back into a JSON object
field list. -/
def optField (key : String) (v : Option JVal) : List (String × JVal) :=
  match v with
  | none => []
  | some v => [(key, v)]

/-- The JSON object a wire message denotes, as `JSON.parse` would return
it. -/
def WireMsg.toJVal (m : WireMsg) : JVal :=
  .obj (optField "action" m.action ++ optField "data" m.data ++
    optField "id" m.id ++ optField "token" m.token)

/-- Structural validity of an encoded message per the wire contract of
spec section 6: `action` is a present string, `id` and `token` are strings
when present, and present values are JSON values (never `undefined`, which
cannot occur in parsed JSON). -/
structure WireMsg.WF (m : WireMsg) : Prop where
  action_str : ∃ s, m.action = some (.str s)
  data_json : ∀ v, m.data = some v → v ≠ .undefined
  id_str : ∀ v, m.id = some v → ∃ s, v = .str s
  token_str : ∀ v, m.token = some v → ∃ s, v = .str s

/-- A decoded request as seen by the session layer, with the field types of
the wire contract (spec section 6: `action: string, data: any, id?: string,
token?: string`; the codec defaults absent `id`/`token` to `""`).  The
session-layer handlers below switch on `action` as a string and compare
`id`/`token` as strings, matching the TypeScript declarations of
`SockRequest`/`Request`. -/
structure Req where
  parseError : Bool
  action : String
  data : JVal
  id : String
  token : String
  deriving Repr

/-- State the authentication gate of src/index.ts and src/unnamed/part_000
reads or writes: `id_` (the identity bound on first authentication, `none`
until then), `isAdmin`, and part_000's `isInitiator` flag (untouched by the
gate itself; src/index.ts simply has no such field). -/
structure ClientAuthState where
  id_ : Option String
  isAdmin : Bool
  isInitiator : Bool
  deriving DecidableEq, Repr

/-- Embedding of `ClientConnection.authenticateRequest`
(src/unnamed/part_003 lines 225-237, both copies are identical): on the
first call the connection's `_id` is assigned from the request, a later
request with a different `id` fails, and otherwise the token is compared
with the shared secret "testauth".  Returns the boolean result and the
successor `_id` state. -/
def ClientConnection.authenticateRequest (id_ : Option String) (req : Req) :
    Bool × Option String :=
  if id_ = none then
    -- Assign id to connection on first auth
    let id_ := some req.id
    if req.token == "testauth" then (true, id_) else (false, id_)
  else if id_ ≠ some req.id then
    -- Check if id changed since first auth
    (false, id_)
  else
    if req.token == "testauth" then (true, id_) else (false, id_)

/-- Embedding of `Client.getAuthentication` (src/index.ts lines 115-133 and
src/unnamed/part_000 lines 148-166, which agree line for line): as
`authenticateRequest`, but additionally `isAdmin` is set when `req.id` is
"admin", before the token is checked.  src/unnamed/part_002 lines 93-107 is
the same gate without the admin clause. -/
def Client.getAuthentication (s : ClientAuthState) (req : Req) :
    Bool × ClientAuthState :=
  if s.id_ = none then
    let s := { s with id_ := some req.id }
    let s := if req.id == "admin" then { s with isAdmin := true } else s
    if req.token == "testauth" then (true, s) else (false, s)
  else if s.id_ ≠ some req.id then
    (false, s)
  else
    let s := if req.id == "admin" then { s with isAdmin := true } else s
    if req.token == "testauth" then (true, s) else (false, s)

/-- Observable effect of one session-layer handler invocation. -/
inductive Effect where
  /-- The authentication gate ran, with the given result. -/
  | authGate (ok : Bool)
  /-- `this.close()`: peer connection and socket are torn down. -/
  | closeConn
  /-- `getRtcAnswer(offer)` started: the media engine's
  set-remote-description / create-answer / set-local-description sequence
  for this offer, followed by sending the answer. -/
  | getRtcAnswer (offer : JVal)
  /-- `peerConnection.addIceCandidate(data)`. -/
  | addIceCandidate (data : JVal)
  /-- `processAnswer(data)`: `peerConnection.setRemoteDescription(data)`. -/
  | setRemoteDescription (data : JVal)
  /-- `sendOffer()`: create-offer / set-local-description then send the
  offer message. -/
  | sendOffer
  /-- A message was written to the socket. -/
  | send (m : WireMsg)
  /-- The unknown-action log line. -/
  | logUnknown (action : String)
  deriving Repr

/-- Embedding of `InboundClient.onClientMessage` (src/unnamed/part_003
lines 291-320, both copies identical).  `id_` is the connection's bound
identity.  The `addICE` arm reads `req.data.candidate`, which throws when
`data` is `null`; effects produced before such a throw are kept. -/
def InboundClient.onClientMessage (id_ : Option String) (req : Req) :
    List Effect × Option String × Option JsErr :=
  if req.parseError then ([], id_, none)
  else
    let (ok, id_') := ClientConnection.authenticateRequest id_ req
    if !ok then ([.authGate false, .closeConn], id_', none)
    else
      match req.action with
      | "offer" => ([.authGate true, .getRtcAnswer req.data], id_', none)
      | "addICE" =>
        match req.data.get "candidate" with
        | .error e => ([.authGate true], id_', some e)
        | .ok c =>
          if c.truthy then ([.authGate true, .addIceCandidate req.data], id_', none)
          else ([.authGate true], id_', none)
      | a => ([.authGate true, .logUnknown a], id_', none)

/-- Embedding of `OutboundClient.onClientMessage` (src/unnamed/part_003
lines 348-371, both copies identical): no authentication of any kind, the
action is dispatched directly. -/
def OutboundClient.onClientMessage (req : Req) : List Effect × Option JsErr :=
  if req.parseError then ([], none)
  else
    match req.action with
    | "answer" => ([.setRemoteDescription req.data], none)
    | "renegotiate" => ([.sendOffer], none)
    | "addICE" =>
      match req.data.get "candidate" with
      | .error e => ([], some e)
      | .ok c =>
        if c.truthy then ([.addIceCandidate req.data], none)
        else ([], none)
    | a => ([.logUnknown a], none)

/-- Observable effect of one `Client.socketMessage` invocation in
src/unnamed/part_000. -/
inductive Effect000 where
  /-- `this.socket.close(); this.peerConnection.close()` after an
  authentication failure. -/
  | closeConn
  /-- `this.adminCommands(req)` was invoked. -/
  | adminDispatch
  /-- A message was written to the socket. -/
  | send (m : WireMsg)
  /-- `processAnswer(data)`: `peerConnection.setRemoteDescription(data)`. -/
  | setRemoteDescription (data : JVal)
  /-- `peerConnection.addIceCandidate(data)`. -/
  | addIceCandidate (data : JVal)
  deriving Repr

/-- Embedding of `Client.socketMessage` of src/unnamed/part_000 lines
172-213.  `engineAnswer` and `engineOffer` stand for the values the media
engine returns from `createAnswer`/`createOffer`; `nodeId`/`nodeAuth` are
the globals `NODE_ID`/`NODE_AUTH` (initially "default"/"testauth").  The
"offer" arm is `sendAnswer` (lines 250-256): negotiate, then emit the
answer message built by `Response.generateAnswerMessage`; the
"renegotiate" arm is `sendOffer` (lines 258-264), which sets
`isInitiator`.  The switch has no default arm. -/
def Client000.socketMessage (nodeId nodeAuth : String) (engineAnswer engineOffer : JVal)
    (s : ClientAuthState) (req : Req) : List Effect000 × ClientAuthState × Option JsErr :=
  if req.parseError then ([], s, none)
  else
    let (ok, s') := Client.getAuthentication s req
    if !ok then ([.closeConn], s', none)
    else if s'.isAdmin then ([.adminDispatch], s', none)
    else
      match req.action with
      | "offer" =>
        ([.send (Response000.generateAnswerMessage nodeId nodeAuth engineAnswer)], s', none)
      | "answer" => ([.setRemoteDescription req.data], s', none)
      | "renegotiate" =>
        ([.send (Response000.generateOfferMessage nodeId nodeAuth engineOffer)],
          { s' with isInitiator := true }, none)
      | "addICE" =>
        match req.data.get "candidate" with
        | .error e => ([], s', some e)
        | .ok c =>
          if c.truthy then ([.addIceCandidate req.data], s', none)
          else ([], s', none)
      | _ => ([], s', none)

/-- A session as the routing coordinator sees it: its bound identity and
its inbound media streams (part_001 and part_003 keep `clientStreams :
MediaStream[]`; part_000 keeps a single nullable `clientStream`, modelled
here as the head of the list). -/
structure RouteClient where
  id : String
  clientStreams : List JVal
  deriving Repr

/-- Embedding of `ClientManager.getClientById` of src/unnamed/part_001
lines 97-104: a for-of loop returning the first client whose id matches. -/
def ClientManager.getClientById (clients : List RouteClient) (id : String) :
    Option RouteClient :=
  clients.find? (fun c => c.id == id)

/-- Embedding of `Management.getClientById` of src/unnamed/part_003 lines
464-473 (and 981-990): a forEach loop that overwrites `result` on every
match, so the last matching client wins. -/
def Management.getClientById (clients : List RouteClient) (id : String) :
    Option RouteClient :=
  clients.foldl (fun result c => if c.id == id then some c else result) none

/-- Embedding of the module-level `getClientById` of src/unnamed/part_000
lines 283-292 (same forEach/last-match shape as the Management variant). -/
def getClientById000 (clients : List RouteClient) (id : String) :
    Option RouteClient :=
  clients.foldl (fun result c => if c.id == id then some c else result) none

/-- Observable effect of one routing command. -/
inductive RouteEffect where
  /-- The source-client-does-not-exist error log; processing stops. -/
  | failSource (id : String)
  /-- The destination-client-does-not-exist error log. -/
  | failDest (id : String)
  /-- `destClient.addMediaStream(srcStream)`. -/
  | attachStream (destId : String) (stream : JVal)
  /-- `destClient.renegotiateWebRTC()`. -/
  | renegotiate (destId : String)
  deriving Repr

/-- Embedding of `ConnectionManager.connectClients` of src/unnamed/part_001
lines 140-157.  The source is looked up first; when missing, the command
fails and nothing else happens.  The destination loop is
`for (let i = 1; i < destClientIds.length; i++)`: it starts at index 1 of
`destClientIds`, although `destClientIds` holds only destinations (the
source is the separate first parameter), so index 0 is never visited.  A
missing destination logs and continues. -/
def ConnectionManager.connectClients (clients : List RouteClient)
    (srcClientId : String) (destClientIds : List String) : List RouteEffect :=
  match ClientManager.getClientById clients srcClientId with
  | none => [.failSource srcClientId]
  | some srcClient =>
    let srcStream := srcClient.clientStreams.head?.getD .undefined
    ((destClientIds.drop 1).map (fun destId =>
      match ClientManager.getClientById clients destId with
      | none => [RouteEffect.failDest destId]
      | some destClient =>
        [RouteEffect.attachStream destClient.id srcStream,
          RouteEffect.renegotiate destClient.id])).flatten

/-- Embedding of the `addRoute` arm of `Management.onManagementMessage`
(src/unnamed/part_003 lines 430-446 and 947-963): `req.data[0]` is the
source id, the loop `for (let i = 1; i < req.data.length; i++)` covers the
remaining elements; a missing destination logs and continues.  With an
empty array, `req.data[0]` is `undefined`, the lookup misses and the
logged id renders as "undefined". -/
def Management.onAddRoute (clients : List RouteClient) (data : List String) :
    List RouteEffect :=
  match data with
  | [] => [.failSource "undefined"]
  | src :: dests =>
    match Management.getClientById clients src with
    | none => [.failSource src]
    | some client =>
      let srcStream := client.clientStreams.head?.getD .undefined
      (dests.map (fun destId =>
        match Management.getClientById clients destId with
        | none => [RouteEffect.failDest destId]
        | some user =>
          [RouteEffect.attachStream user.id srcStream,
            RouteEffect.renegotiate user.id])).flatten

/-- Destination loop of the `addRoute` arm of `Client.adminCommands`
(src/unnamed/part_000 lines 228-235).  The null check only logs: there is
no `continue`, so for a missing destination the loop body still evaluates
`user.addMediaStream(srcStream)` on the null lookup result, which throws a
`TypeError` and aborts the whole command; effects of earlier iterations
are kept. -/
def Client000.addRouteLoop (clients : List RouteClient) (srcStream : JVal) :
    List String → List RouteEffect × Option JsErr
  | [] => ([], none)
  | destId :: rest =>
    match getClientById000 clients destId with
    | none => ([.failDest destId], some .typeError)
    | some user =>
      let (es, err) := Client000.addRouteLoop clients srcStream rest
      (.attachStream user.id srcStream :: .renegotiate user.id :: es, err)

/-- Embedding of the `addRoute` arm of `Client.adminCommands`
(src/unnamed/part_000 lines 224-236): `req.data[0]` is the source id;
`getClientById(req.data[0]).mediaStream` throws when the source is
missing; then the destination loop from index 1. -/
def Client000.addRoute (clients : List RouteClient) (data : List String) :
    List RouteEffect × Option JsErr :=
  match data with
  | [] => ([], some .typeError)
  | src :: dests =>
    match getClientById000 clients src with
    | none => ([], some .typeError)
    | some srcClient =>
      let srcStream := srcClient.clientStreams.head?.getD .null
      Client000.addRouteLoop clients srcStream dests

/-- A Firestore document as read by the relay-transport handlers of
src/unnamed/part_001: the sender's `id` plus the three possible payload
fields; a field that is absent from the document reads as `undefined`. -/
structure SigDoc where
  id : String
  offer : JVal
  answer : JVal
  ice : JVal
  deriving Repr

/-- Observable effect of one relay-transport document handler. -/
inductive SigEffect where
  /-- The client-not-initialized error log. -/
  | logNoClient (id : String)
  /-- `client.handleAnswer(v)`, i.e. `peerConnection.setRemoteDescription(v)`
  (src/unnamed/part_001 lines 235-238). -/
  | answerTo (clientId : String) (v : JVal)
  /-- `client.handleIce(v)`, i.e. `peerConnection.addIceCandidate(v)`
  (src/unnamed/part_001 lines 226-229). -/
  | iceTo (clientId : String) (v : JVal)
  /-- The null-payload error log. -/
  | logNullPayload (id : String)
  deriving Repr

/-- Embedding of the per-added-document logic of `SignalManager.handleAnswer`
(src/unnamed/part_001 lines 378-393): look the sender up, then
`if (change.doc.data().answer) client.handleAnswer(change.doc.data().offer)`
— the guard tests the `answer` field but the value passed on is the `offer`
field; the null-answer log line runs unconditionally (there is no return in
the guarded branch). -/
def SignalManager.handleAnswerDoc (clients : List RouteClient) (doc : SigDoc) :
    List SigEffect :=
  match ClientManager.getClientById clients doc.id with
  | none => [.logNoClient doc.id]
  | some client =>
    (if doc.answer.truthy then [SigEffect.answerTo client.id doc.offer] else [])
      ++ [.logNullPayload doc.id]

/-- Embedding of the per-added-document logic of `SignalManager.handleICE`
(src/unnamed/part_001 lines 395-409): the guard tests the `ice` field but
the value passed to `client.handleIce` is the `offer` field; the null-ICE
log line runs unconditionally. -/
def SignalManager.handleICEDoc (clients : List RouteClient) (doc : SigDoc) :
    List SigEffect :=
  match ClientManager.getClientById clients doc.id with
  | none => [.logNoClient doc.id]
  | some client =>
    (if doc.ice.truthy then [SigEffect.iceTo client.id doc.offer] else [])
      ++ [.logNullPayload doc.id]

/-- State of the bootstrap handoff of src/unnamed/part_003 lines 503-544:
the `db_read` guard flag, the live management channels opened so far (the
`new Socket(data.management_socket)` calls), the number of
`docRef.delete()` calls, and whether `unsub()` has run. -/
structure BootState where
  db_read : Bool
  opened : List JVal
  deletes : Nat
  unsubbed : Bool
  deriving Repr

/-- Bootstrap state before the first snapshot notification. -/
def initBootState : BootState := ⟨false, [], 0, false⟩

/-- Embedding of the snapshot callback of `init` (src/unnamed/part_003
lines 517-543) on one change notification carrying the registration
document's data.  Control flow in the source: `if (db_read) return;` then
`data = await snapshot.data()`, then if `data.management_socket` is truthy,
`db_read = true` and the handoff (open the live channel, start the server,
delete the document, unsubscribe).

Any one notification is processed up to the `db_read := true` assignment
before the next notification's callback can begin: snapshot deliveries are
separate event-loop macrotasks, and the only await before the assignment is
on `snapshot.data()` (an immediate value), whose continuation is a
microtask that drains before the next macrotask.  The later awaits (the
document delete) suspend only after the guard is already set, so a
notification sequence is faithfully modelled by this sequential step
function. -/
def onBootSnapshot (st : BootState) (docData : JVal) : Except JsErr BootState :=
  if st.db_read then .ok st
  else do
    let ms ← docData.get "management_socket"
    if ms.truthy then
      .ok ⟨true, st.opened ++ [ms], st.deletes + 1, true⟩
    else
      .ok st

/-- The bootstrap handoff run over a whole sequence of change
notifications. -/
def bootRun (notifs : List JVal) : Except JsErr BootState :=
  notifs.foldlM onBootSnapshot initBootState

/-- The first management-channel assignment observable in a notification
sequence: the `management_socket` field of the first notification on which
that field is truthy. -/
def firstSocket (notifs : List JVal) : Option JVal :=
  notifs.findSome? (fun d =>
    match d.get "management_socket" with
    | .error _ => none
    | .ok ms => if ms.truthy then some ms else none)

/-- An event on a single accepting session's event loop: arrival of an
`offer` message (tagged so the resulting engine calls can be attributed),
or completion by the media engine of its oldest outstanding negotiation
call. -/
inductive NegEvent where
  | message (offer : Nat)
  | engineDone
  deriving DecidableEq, Repr

/-- A negotiation call issued to the media engine (plus the final answer
send resolved by the `.then`), tagged by the offer that caused it. -/
inductive EngineCall where
  | setRemoteDescription (offer : Nat)
  | createAnswer (offer : Nat)
  | setLocalDescription (offer : Nat)
  | sendAnswer (offer : Nat)
  deriving DecidableEq, Repr

/-- Where a suspended `getRtcAnswer` coroutine is parked: which await it is
sitting on. -/
inductive NegStage where
  | awaitSetRemote
  | awaitCreateAnswer
  | awaitSetLocal
  deriving DecidableEq, Repr

/-- Trace and suspended-coroutine queue of a single session processing
offers. -/
structure NegState where
  trace : List EngineCall
  pending : List (Nat × NegStage)
  deriving DecidableEq, Repr

/-- Small-step semantics of the `offer` arm of
`InboundClient.onClientMessage` (src/unnamed/part_003 lines 304-310) and
`getRtcAnswer` (lines 332-338) under the JavaScript event loop.  An
arriving offer message runs the handler synchronously: the handler calls
`getRtcAnswer(req.data)` unconditionally — there is no outstanding-
negotiation flag, queue, or rejection anywhere in the class — and
`getRtcAnswer` issues `setRemoteDescription` and suspends on its first
await.  When the engine completes its oldest outstanding call, the
corresponding coroutine resumes and issues its next call
(`createAnswer`, then `setLocalDescription`, then the answer send). -/
def negStep (s : NegState) (e : NegEvent) : NegState :=
  match e with
  | .message k =>
    ⟨s.trace ++ [.setRemoteDescription k], s.pending ++ [(k, .awaitSetRemote)]⟩
  | .engineDone =>
    match s.pending with
    | [] => s
    | (k, .awaitSetRemote) :: rest =>
      ⟨s.trace ++ [.createAnswer k], rest ++ [(k, .awaitCreateAnswer)]⟩
    | (k, .awaitCreateAnswer) :: rest =>
      ⟨s.trace ++ [.setLocalDescription k], rest ++ [(k, .awaitSetLocal)]⟩
    | (k, .awaitSetLocal) :: rest =>
      ⟨s.trace ++ [.sendAnswer k], rest⟩

/-- The engine-call trace produced by a sequence of events on one session,
starting idle. -/
def negTrace (events : List NegEvent) : List EngineCall :=
  (events.foldl negStep ⟨[], []⟩).trace

/-- The offer an engine call belongs to. -/
def EngineCall.offerTag : EngineCall → Nat
  | .setRemoteDescription k => k
  | .createAnswer k => k
  | .setLocalDescription k => k
  | .sendAnswer k => k

/-- A trace is serialized per offer when the calls belonging to one offer
are never interleaved with another offer's: between two calls of the same
offer no call of a different offer occurs. -/
def SerializedTrace (t : List EngineCall) : Prop :=
  ∀ i j k : Fin t.length, i < j → j < k →
    (t.get i).offerTag = (t.get k).offerTag →
    (t.get j).offerTag = (t.get i).offerTag

/-- The `_id` state of a part_003 connection after a sequence of messages
has passed through `authenticateRequest`. -/
def gateRunAuth (id_ : Option String) (msgs : List Req) : Option String :=
  msgs.foldl (fun s r => (ClientConnection.authenticateRequest s r).2) id_

/-- The auth state of a src/index.ts / part_000 client after a sequence of
messages has passed through `getAuthentication`. -/
def gateRunGet (s : ClientAuthState) (msgs : List Req) : ClientAuthState :=
  msgs.foldl (fun s r => (Client.getAuthentication s r).2) s

/-- Registry for the routing scenario of the spec: alice (with one inbound
stream), bob and carol are connected; "ghost" is not. -/
def demoRegistry : List RouteClient :=
  [⟨"alice", [JVal.str "alice-stream"]⟩, ⟨"bob", []⟩, ⟨"carol", []⟩]

/-- Registry for the relay-transport scenario: one initialized client. -/
def demoRelayRegistry : List RouteClient := [⟨"bob", []⟩]

/-- An added `receivedAnswers` document from bob carrying only an `answer`
payload (no `offer` field, so that field reads as `undefined`). -/
def demoAnswerDoc : SigDoc := ⟨"bob", .undefined, .str "sdp-answer", .undefined⟩

/-- An added `receivedIce` document from bob carrying only an `ice`
payload. -/
def demoIceDoc : SigDoc := ⟨"bob", .undefined, .undefined, .str "ice-cand"⟩

/-- A well-formed first message: alice authenticating with the shared
secret. -/
def reqAlice : Req := ⟨false, "offer", .null, "alice", "testauth"⟩

/-- A later message claiming a different identity with a valid token. -/
def reqMallory : Req := ⟨false, "answer", .null, "mallory", "testauth"⟩

/-- A first message carrying the admin identity but an invalid token. -/
def reqBadToken : Req := ⟨false, "offer", .null, "admin", "wrong"⟩

/-- A structurally valid encoded message with `action`, `data` and `id`
present and `token` absent. -/
def demoWire : WireMsg := ⟨some (.str "offer"), some (.str "sdp"), some (.str "alice"), none⟩

/-- A bootstrap notification sequence: the initial snapshot (assignment
still null), then two notifications in a row carrying the same
management-channel assignment. -/
def demoNotifs : List JVal :=
  [.obj [("management_socket", .null)],
    .obj [("management_socket", .str "ws://mgmt")],
    .obj [("management_socket", .str "ws://mgmt")]]

/-- Once an identity is bound, `authenticateRequest` never reassigns it,
whatever the request. -/
theorem authenticateRequest_fixes_id (a : String) (r : Req) :
    (ClientConnection.authenticateRequest (some a) r).2 = some a := by
  unfold ClientConnection.authenticateRequest
  split
  · simp_all
  · split
    · rfl
    · split <;> rfl

/-- A bound identity survives any sequence of messages through
`authenticateRequest`. -/
theorem gateRunAuth_fixes_id (a : String) (msgs : List Req) :
    gateRunAuth (some a) msgs = some a := by
  induction msgs with
  | nil => rfl
  | cons r rest ih =>
    simp only [gateRunAuth, List.foldl_cons] at ih ⊢
    rw [authenticateRequest_fixes_id]
    exact ih

/-- A request whose id differs from the bound identity fails
`authenticateRequest` and leaves the binding unchanged. -/
theorem authenticateRequest_mismatch (a : String) (r : Req) (h : r.id ≠ a) :
    ClientConnection.authenticateRequest (some a) r = (false, some a) := by
  have h' : a ≠ r.id := Ne.symm h
  simp [ClientConnection.authenticateRequest, h']

/-- The first call to `authenticateRequest` binds the identity from the
request, whatever the token. -/
theorem authenticateRequest_first_binds (r : Req) :
    (ClientConnection.authenticateRequest none r).2 = some r.id := by
  unfold ClientConnection.authenticateRequest
  split
  · split <;> rfl
  · simp_all

/-- The first call to `authenticateRequest` succeeds exactly when the token
matches the shared secret. -/
theorem authenticateRequest_first_result (r : Req) :
    (ClientConnection.authenticateRequest none r).1 = (r.token == "testauth") := by
  unfold ClientConnection.authenticateRequest
  split
  · split <;> simp_all
  · simp_all

/-- Once an identity is bound, `getAuthentication` never reassigns it. -/
theorem getAuthentication_fixes_id (s : ClientAuthState) (a : String) (r : Req)
    (h : s.id_ = some a) :
    (Client.getAuthentication s r).2.id_ = some a := by
  simp only [Client.getAuthentication]
  split
  · simp_all
  · split
    · simp_all
    · split <;> split <;> simp_all

/-- A bound identity survives any sequence of messages through
`getAuthentication`. -/
theorem gateRunGet_fixes_id (s : ClientAuthState) (a : String) (msgs : List Req)
    (h : s.id_ = some a) :
    (gateRunGet s msgs).id_ = some a := by
  induction msgs generalizing s with
  | nil => exact h
  | cons r rest ih =>
    simp only [gateRunGet, List.foldl_cons] at ih ⊢
    exact ih _ (getAuthentication_fixes_id s a r h)

/-- A request whose id differs from the bound identity fails
`getAuthentication` and leaves the whole state unchanged. -/
theorem getAuthentication_mismatch (s : ClientAuthState) (a : String) (r : Req)
    (h : s.id_ = some a) (h2 : r.id ≠ a) :
    Client.getAuthentication s r = (false, s) := by
  have h' : a ≠ r.id := Ne.symm h2
  simp [Client.getAuthentication, h, h']

/-- The first call to `getAuthentication` binds the identity from the
request, whatever the token. -/
theorem getAuthentication_first_binds (s : ClientAuthState) (r : Req)
    (h : s.id_ = none) :
    (Client.getAuthentication s r).2.id_ = some r.id := by
  unfold Client.getAuthentication
  split
  · split <;> split <;> rfl
  · simp_all

/-- C2: for every session, the first message that successfully
authenticates binds the session's identity permanently: after any further
message sequence the bound identity is still the first message's id, and a
message carrying a different id fails authentication and leaves the bound
identity (and, for the `getAuthentication` variant, the whole auth state)
unchanged.  Proved for both gate variants: `authenticateRequest`
(src/unnamed/part_003) and `getAuthentication` (src/index.ts,
src/unnamed/part_000). -/
theorem session_identity_binds_permanently (r1 : Req)
    (h1 : (ClientConnection.authenticateRequest none r1).1 = true)
    (msgs : List Req) (r2 : Req) (h2 : r2.id ≠ r1.id) :
    (ClientConnection.authenticateRequest none r1).2 = some r1.id ∧
    gateRunAuth (ClientConnection.authenticateRequest none r1).2 msgs = some r1.id ∧
    ClientConnection.authenticateRequest
        (gateRunAuth (ClientConnection.authenticateRequest none r1).2 msgs) r2 =
      (false, some r1.id) ∧
    (Client.getAuthentication ⟨none, false, false⟩ r1).2.id_ = some r1.id ∧
    (gateRunGet (Client.getAuthentication ⟨none, false, false⟩ r1).2 msgs).id_ =
      some r1.id ∧
    Client.getAuthentication
        (gateRunGet (Client.getAuthentication ⟨none, false, false⟩ r1).2 msgs) r2 =
      (false, gateRunGet (Client.getAuthentication ⟨none, false, false⟩ r1).2 msgs) := by
  have b1 := authenticateRequest_first_binds r1
  have run1 : gateRunAuth (ClientConnection.authenticateRequest none r1).2 msgs =
      some r1.id := by
    rw [b1]
    exact gateRunAuth_fixes_id r1.id msgs
  have g1 : (Client.getAuthentication ⟨none, false, false⟩ r1).2.id_ = some r1.id :=
    getAuthentication_first_binds ⟨none, false, false⟩ r1 rfl
  have grun1 : (gateRunGet (Client.getAuthentication ⟨none, false, false⟩ r1).2 msgs).id_ =
      some r1.id :=
    gateRunGet_fixes_id _ r1.id msgs g1
  refine ⟨b1, run1, ?_, g1, grun1, ?_⟩
  · rw [run1]
    exact authenticateRequest_mismatch r1.id r2 h2
  · exact getAuthentication_mismatch _ r1.id r2 grun1 h2

/-- C2 witness: alice authenticates first (binding the identity), a
well-formed message from alice passes in between, then a message from
mallory with a valid token is rejected and the binding stays alice. -/
theorem session_identity_binds_permanently_witness :
    ((ClientConnection.authenticateRequest none reqAlice).1 = true) ∧
    (reqMallory.id ≠ reqAlice.id) ∧
    ((ClientConnection.authenticateRequest none reqAlice).2 = some reqAlice.id ∧
      gateRunAuth (ClientConnection.authenticateRequest none reqAlice).2 [reqAlice] =
        some reqAlice.id ∧
      ClientConnection.authenticateRequest
          (gateRunAuth (ClientConnection.authenticateRequest none reqAlice).2 [reqAlice])
          reqMallory =
        (false, some reqAlice.id) ∧
      (Client.getAuthentication ⟨none, false, false⟩ reqAlice).2.id_ = some reqAlice.id ∧
      (gateRunGet (Client.getAuthentication ⟨none, false, false⟩ reqAlice).2 [reqAlice]).id_ =
        some reqAlice.id ∧
      Client.getAuthentication
          (gateRunGet (Client.getAuthentication ⟨none, false, false⟩ reqAlice).2 [reqAlice])
          reqMallory =
        (false,
          gateRunGet (Client.getAuthentication ⟨none, false, false⟩ reqAlice).2 [reqAlice])) :=
  ⟨by decide, by decide,
    session_identity_binds_permanently reqAlice (by decide) [reqAlice] reqMallory (by decide)⟩

/-- C10: in both variants of the authentication gate, the very first
message binds the session's identity to that message's id before the token
is checked — and in the admin variant also sets the admin flag when the id
is "admin" — so a first message with an invalid token is rejected while the
identity stays bound to its id. -/
theorem gate_binds_identity_before_token_check (r : Req)
    (h : r.token ≠ "testauth") :
    ClientConnection.authenticateRequest none r = (false, some r.id) ∧
    Client.getAuthentication ⟨none, false, false⟩ r =
      (false, ⟨some r.id, r.id == "admin", false⟩) := by
  have hb : (r.token == "testauth") = false := by simp [h]
  constructor
  · unfold ClientConnection.authenticateRequest
    simp [hb]
  · unfold Client.getAuthentication
    by_cases ha : (r.id == "admin") = true <;> simp [hb, ha]

/-- C10 witness: a first message with id "admin" and a wrong token fails
authentication but leaves the identity bound to "admin" and the admin flag
set. -/
theorem gate_binds_identity_before_token_check_witness :
    (reqBadToken.token ≠ "testauth") ∧
    (ClientConnection.authenticateRequest none reqBadToken = (false, some reqBadToken.id) ∧
      Client.getAuthentication ⟨none, false, false⟩ reqBadToken =
        (false, ⟨some reqBadToken.id, reqBadToken.id == "admin", false⟩)) :=
  ⟨by decide, gate_binds_identity_before_token_check reqBadToken (by decide)⟩

/-- C5: on an accepting session every successfully parsed inbound message
goes through the authentication gate first (and a gate failure closes the
session and processes nothing else), while an initiating session never
invokes the gate on any inbound message. -/
theorem accepting_gate_asymmetry (id_ : Option String) (req : Req)
    (h : req.parseError = false) :
    (InboundClient.onClientMessage id_ req).1.head? =
      some (.authGate (ClientConnection.authenticateRequest id_ req).1) ∧
    ((ClientConnection.authenticateRequest id_ req).1 = false →
      (InboundClient.onClientMessage id_ req).1 = [.authGate false, .closeConn]) ∧
    (∀ b, Effect.authGate b ∉ (OutboundClient.onClientMessage req).1) := by
  rcases hq : ClientConnection.authenticateRequest id_ req with ⟨ok, id2⟩
  refine ⟨?_, ?_, ?_⟩
  · simp only [InboundClient.onClientMessage, h, hq]
    cases ok
    · rfl
    · simp only [Bool.not_true, Bool.false_eq_true, if_false]
      split
      · rfl
      · split
        · rfl
        · split <;> rfl
      · rfl
  · intro hf
    simp only [hq] at hf
    simp only [InboundClient.onClientMessage, h, hq, hf]
    rfl
  · intro b
    simp only [OutboundClient.onClientMessage, h]
    repeat' split
    all_goals simp

/-- C5 witness: a parsed message with a bad token on an accepting session
runs the gate first and is closed without processing; the same message on
an initiating session never touches the gate. -/
theorem accepting_gate_asymmetry_witness :
    (reqBadToken.parseError = false) ∧
    ((InboundClient.onClientMessage none reqBadToken).1.head? =
        some (.authGate (ClientConnection.authenticateRequest none reqBadToken).1) ∧
      ((ClientConnection.authenticateRequest none reqBadToken).1 = false →
        (InboundClient.onClientMessage none reqBadToken).1 =
          [.authGate false, .closeConn]) ∧
      (∀ b, Effect.authGate b ∉ (OutboundClient.onClientMessage reqBadToken).1)) :=
  ⟨rfl, accepting_gate_asymmetry none reqBadToken rfl⟩

/-- C1: evaluating the routing variants on the spec scenario
route("alice", moving alice's stream to bob, ghost, carol) with ghost
absent.  `ConnectionManager.connectClients` (src/unnamed/part_001) never
looks up bob at all — its destination loop starts at index 1 of the
destination list — so bob gets neither the stream nor a renegotiation;
part_000's `adminCommands` route aborts with a `TypeError` at ghost, so
carol is never processed; only part_003's `Management` handler produces
the behavior the spec describes. -/
theorem route_missing_destination_divergence :
    ConnectionManager.connectClients demoRegistry "alice" ["bob", "ghost", "carol"] =
      [.failDest "ghost", .attachStream "carol" (.str "alice-stream"),
        .renegotiate "carol"] ∧
    (∀ s, RouteEffect.attachStream "bob" s ∉
      ConnectionManager.connectClients demoRegistry "alice" ["bob", "ghost", "carol"]) ∧
    (RouteEffect.renegotiate "bob" ∉
      ConnectionManager.connectClients demoRegistry "alice" ["bob", "ghost", "carol"]) ∧
    Client000.addRoute demoRegistry ["alice", "bob", "ghost", "carol"] =
      ([.attachStream "bob" (.str "alice-stream"), .renegotiate "bob",
        .failDest "ghost"], some .typeError) ∧
    (∀ s, RouteEffect.attachStream "carol" s ∉
      (Client000.addRoute demoRegistry ["alice", "bob", "ghost", "carol"]).1) ∧
    Management.onAddRoute demoRegistry ["alice", "bob", "ghost", "carol"] =
      [.attachStream "bob" (.str "alice-stream"), .renegotiate "bob",
        .failDest "ghost", .attachStream "carol" (.str "alice-stream"),
        .renegotiate "carol"] := by
  have h1 : ConnectionManager.connectClients demoRegistry "alice" ["bob", "ghost", "carol"] =
      [.failDest "ghost", .attachStream "carol" (.str "alice-stream"),
        .renegotiate "carol"] := rfl
  have h2 : Client000.addRoute demoRegistry ["alice", "bob", "ghost", "carol"] =
      ([.attachStream "bob" (.str "alice-stream"), .renegotiate "bob",
        .failDest "ghost"], some .typeError) := rfl
  refine ⟨h1, ?_, ?_, h2, ?_, rfl⟩
  · intro s
    rw [h1]
    simp
  · rw [h1]
    simp
  · intro s
    rw [h2]
    simp

/-- C4: the decoder is not total.  On input that is not valid JSON the
constructor records `parseError` but then throws a `TypeError` reading
`parsed.action`, so no flagged message is ever returned (and the consuming
handler's parse-error branch is unreachable); the same happens for the
valid JSON text "null".  For valid object input the optional-field
defaults do work as specified. -/
theorem request_decode_throws_on_parse_error :
    mkSockRequest none = .error .typeError ∧
    mkSockRequest (some .null) = .error .typeError ∧
    mkSockRequest (some (.obj [("action", .str "offer")])) =
      .ok ⟨false, .str "offer", .null, .str "", .str ""⟩ ∧
    mkSockRequest (some (.obj [("action", .str "offer"), ("data", .str "sdp"),
        ("id", .str "alice"), ("token", .str "testauth")])) =
      .ok ⟨false, .str "offer", .str "sdp", .str "alice", .str "testauth"⟩ :=
  ⟨rfl, rfl, rfl, rfl⟩

/-- C8: evaluating the relay-transport handlers on added documents whose
`answer`/`ice` fields are set but whose `offer` field is absent: the
session's set-remote-description / add-ice-candidate is invoked with the
document's `offer` field (`undefined` here), never with the `answer` or
`ice` payload the guard tested. -/
theorem relay_handlers_pass_offer_field :
    SignalManager.handleAnswerDoc demoRelayRegistry demoAnswerDoc =
      [.answerTo "bob" .undefined, .logNullPayload "bob"] ∧
    (SigEffect.answerTo "bob" (.str "sdp-answer") ∉
      SignalManager.handleAnswerDoc demoRelayRegistry demoAnswerDoc) ∧
    SignalManager.handleICEDoc demoRelayRegistry demoIceDoc =
      [.iceTo "bob" .undefined, .logNullPayload "bob"] ∧
    (SigEffect.iceTo "bob" (.str "ice-cand") ∉
      SignalManager.handleICEDoc demoRelayRegistry demoIceDoc) := by
  have h1 : SignalManager.handleAnswerDoc demoRelayRegistry demoAnswerDoc =
      [.answerTo "bob" .undefined, .logNullPayload "bob"] := rfl
  have h2 : SignalManager.handleICEDoc demoRelayRegistry demoIceDoc =
      [.iceTo "bob" .undefined, .logNullPayload "bob"] := rfl
  refine ⟨h1, ?_, h2, ?_⟩
  · rw [h1]
    simp
  · rw [h2]
    simp

/-- C6 counterexample: in src/unnamed/part_000 an accepting (non-initiator)
client answering an inbound offer emits an answer message that carries the
node id and auth token (globals "default"/"testauth"), contradicting the
claim that accepting-role responses never carry id/token. -/
theorem accepting_answer_carries_credentials_counterexample :
    (Client000.socketMessage "default" "testauth" (.str "sdp-answer") .null
        ⟨none, false, false⟩ reqAlice).1 =
      [.send ⟨some (.str "answer"), some (.str "sdp-answer"),
        some (.str "default"), some (.str "testauth")⟩] ∧
    (Response000.generateAnswerMessage "default" "testauth" (.str "sdp-answer")).id ≠
      none ∧
    (Response000.generateAnswerMessage "default" "testauth" (.str "sdp-answer")).token ≠
      none := by
  refine ⟨rfl, ?_, ?_⟩ <;>
    simp [Response000.generateAnswerMessage, Response000.generateGenericMessage, jfield]

/-- C6 as amended: in the part_003 codec the accepting-role emissions
(answer, renegotiate request, accepting-side ICE) carry no id and no token,
and the initiating-role emissions (offer, initiating-side ICE) carry both.
`InboundClient` emits via `RESP_ANSWER`, `RESP_RENEG` and
`RESP_ICE ... false`; `OutboundClient` emits via `RESP_OFFER` and
`RESP_ICE ... true`. -/
theorem sockresponse_role_credential_asymmetry (nodeId nodeAuth : String)
    (ans ice offer : JVal) :
    (SockResponse.RESP_ANSWER nodeId nodeAuth ans).id = none ∧
    (SockResponse.RESP_ANSWER nodeId nodeAuth ans).token = none ∧
    (SockResponse.RESP_RENEG nodeId nodeAuth).id = none ∧
    (SockResponse.RESP_RENEG nodeId nodeAuth).token = none ∧
    (SockResponse.RESP_ICE nodeId nodeAuth ice false).id = none ∧
    (SockResponse.RESP_ICE nodeId nodeAuth ice false).token = none ∧
    (SockResponse.RESP_OFFER nodeId nodeAuth offer).id = some (.str nodeId) ∧
    (SockResponse.RESP_OFFER nodeId nodeAuth offer).token = some (.str nodeAuth) ∧
    (SockResponse.RESP_ICE nodeId nodeAuth ice true).id = some (.str nodeId) ∧
    (SockResponse.RESP_ICE nodeId nodeAuth ice true).token = some (.str nodeAuth) := by
  simp [SockResponse.RESP_ANSWER, SockResponse.RESP_RENEG, SockResponse.RESP_ICE,
    SockResponse.RESP_OFFER, SockResponse.generateGenericMessage, jfield]

/-- Bind of a successful `Except` computation reduces. -/
theorem exceptOkBind {α β : Type} (a : α) (f : α → Except JsErr β) :
    (Except.ok a >>= f) = f a := rfl

/-- One event only ever extends the engine-call trace. -/
theorem negStep_trace_extends (s : NegState) (e : NegEvent) :
    ∃ d, (negStep s e).trace = s.trace ++ d := by
  rcases s with ⟨tr, pend⟩
  cases e with
  | message k => exact ⟨[.setRemoteDescription k], rfl⟩
  | engineDone =>
    rcases pend with _ | ⟨⟨k, stg⟩, rest⟩
    · exact ⟨[], by simp [negStep]⟩
    · cases stg
      · exact ⟨[.createAnswer k], rfl⟩
      · exact ⟨[.setLocalDescription k], rfl⟩
      · exact ⟨[.sendAnswer k], rfl⟩

/-- A whole event sequence only ever extends the engine-call trace. -/
theorem negFold_trace_extends (events : List NegEvent) (s : NegState) :
    ∃ d, (events.foldl negStep s).trace = s.trace ++ d := by
  induction events generalizing s with
  | nil => exact ⟨[], by simp⟩
  | cons e rest ih =>
    obtain ⟨d2, h2⟩ := ih (negStep s e)
    obtain ⟨d1, h1⟩ := negStep_trace_extends s e
    exact ⟨d1 ++ d2, by simp [List.foldl_cons, h2, h1]⟩

/-- C3 as amended: a second offer arriving on the same session before the
first negotiation completes is neither queued nor rejected — the handler
immediately issues the engine's set-remote-description for it (in arrival
order), so the two negotiation call sequences interleave on the engine. -/
theorem second_offer_not_queued (a b : Nat) (rest : List NegEvent) :
    ∃ t, negTrace (.message a :: .message b :: rest) =
      .setRemoteDescription a :: .setRemoteDescription b :: t := by
  obtain ⟨d, hd⟩ := negFold_trace_extends rest
    ⟨[.setRemoteDescription a, .setRemoteDescription b],
      [(a, .awaitSetRemote), (b, .awaitSetRemote)]⟩
  refine ⟨d, ?_⟩
  simpa [negTrace, negStep] using hd

/-- C3 counterexample: two offers back-to-back, with the engine completing
calls in order, produce the interleaved call trace SR1 SR2 CA1 CA2 SL1 SL2
— offer 2's set-remote-description runs between offer 1's
set-remote-description and create-answer, so the claimed never-interleaved
processing is false. -/
theorem offers_interleave_counterexample :
    negTrace [.message 1, .message 2, .engineDone, .engineDone, .engineDone,
        .engineDone, .engineDone, .engineDone] =
      [.setRemoteDescription 1, .setRemoteDescription 2, .createAnswer 1,
        .createAnswer 2, .setLocalDescription 1, .setLocalDescription 2,
        .sendAnswer 1, .sendAnswer 2] ∧
    ¬ SerializedTrace (negTrace [.message 1, .message 2, .engineDone, .engineDone,
        .engineDone, .engineDone, .engineDone, .engineDone]) := by
  constructor
  · rfl
  · intro hs
    have h2 := hs ⟨0, by decide⟩ ⟨1, by decide⟩ ⟨2, by decide⟩ (by decide) (by decide)
      (by decide)
    exact absurd h2 (by decide)

/-- Property access on a value that is neither `undefined` nor `null`
never throws. -/
theorem JVal.get_ok (d : JVal) (k : String) (h1 : d ≠ .undefined) (h2 : d ≠ .null) :
    ∃ v, d.get k = .ok v := by
  cases d <;> first | exact ⟨_, rfl⟩ | simp_all

/-- After the `db_read` guard is set, every further notification is
ignored. -/
theorem bootFold_after_guard (notifs : List JVal) (st : BootState)
    (h : st.db_read = true) :
    notifs.foldlM onBootSnapshot st = Except.ok st := by
  induction notifs with
  | nil => rfl
  | cons d rest ih =>
    have hstep : onBootSnapshot st d = Except.ok st := by
      simp [onBootSnapshot, h]
    rw [List.foldlM_cons, hstep]
    exact ih

/-- C7: over any sequence of change notifications (each carrying the
registration document's data), the bootstrap handoff fires exactly once —
one live channel is opened, to the first observed assignment, the
registration document is deleted once, and the subscription is canceled —
as soon as some notification carries a truthy `management_socket`, even if
several do; if none does, nothing fires. -/
theorem bootstrap_handoff_exactly_once (notifs : List JVal)
    (h : ∀ d ∈ notifs, d ≠ JVal.undefined ∧ d ≠ JVal.null) :
    ∃ st, bootRun notifs = .ok st ∧
      st.opened = (firstSocket notifs).toList ∧
      st.deletes = (firstSocket notifs).toList.length ∧
      st.unsubbed = (firstSocket notifs).isSome := by
  induction notifs with
  | nil => exact ⟨initBootState, rfl, rfl, rfl, rfl⟩
  | cons d rest ih =>
    obtain ⟨hd1, hd2⟩ := h d (List.mem_cons_self d rest)
    obtain ⟨v, hv⟩ := JVal.get_ok d "management_socket" hd1 hd2
    have hrest : ∀ x ∈ rest, x ≠ JVal.undefined ∧ x ≠ JVal.null :=
      fun x hx => h x (List.mem_cons_of_mem d hx)
    by_cases ht : v.truthy = true
    · refine ⟨⟨true, [v], 1, true⟩, ?_, ?_, ?_, ?_⟩
      · have hstep : onBootSnapshot initBootState d =
            Except.ok ⟨true, [v], 1, true⟩ := by
          simp [onBootSnapshot, initBootState, hv, ht, exceptOkBind]
        show List.foldlM onBootSnapshot initBootState (d :: rest) = _
        rw [List.foldlM_cons, hstep]
        exact bootFold_after_guard rest _ rfl
      · simp [firstSocket, hv, ht]
      · simp [firstSocket, hv, ht]
      · simp [firstSocket, hv, ht]
    · obtain ⟨st, hst, ho, hdel, hu⟩ := ih hrest
      refine ⟨st, ?_, ?_, ?_, ?_⟩
      · have hstep : onBootSnapshot initBootState d = Except.ok initBootState := by
          simp [onBootSnapshot, initBootState, hv, ht, exceptOkBind]
        show List.foldlM onBootSnapshot initBootState (d :: rest) = _
        rw [List.foldlM_cons, hstep]
        exact hst
      · simpa [firstSocket, hv, ht] using ho
      · simpa [firstSocket, hv, ht] using hdel
      · simpa [firstSocket, hv, ht] using hu

/-- C7 witness: on the notification sequence null-assignment, assignment,
duplicate assignment, the handoff opens exactly one channel (to the
assigned address), deletes once and unsubscribes. -/
theorem bootstrap_handoff_exactly_once_witness :
    (∀ d ∈ demoNotifs, d ≠ JVal.undefined ∧ d ≠ JVal.null) ∧
    bootRun demoNotifs = .ok ⟨true, [.str "ws://mgmt"], 1, true⟩ ∧
    (∃ st, bootRun demoNotifs = .ok st ∧
      st.opened = (firstSocket demoNotifs).toList ∧
      st.deletes = (firstSocket demoNotifs).toList.length ∧
      st.unsubbed = (firstSocket demoNotifs).isSome) := by
  have hwf : ∀ d ∈ demoNotifs, d ≠ JVal.undefined ∧ d ≠ JVal.null := by
    simp [demoNotifs]
  exact ⟨hwf, rfl, bootstrap_handoff_exactly_once demoNotifs hwf⟩

/-- The `?? null` default leaves any parsed JSON value unchanged
(`undefined` cannot occur in parsed JSON). -/
theorem nullish_null_of_ne_undefined (v : JVal) (h : v ≠ .undefined) :
    v.nullish .null = v := by
  cases v <;> simp_all [JVal.nullish]

/-- `JSON.stringify` keeps any field whose value is not `undefined`. -/
theorem jfield_of_ne_undefined (v : JVal) (h : v ≠ .undefined) : jfield v = some v := by
  cases v <;> simp_all [jfield]

/-- C9: decoding a structurally valid encoded message and re-encoding the
result (through part_000's always-four-field `generateGenericMessage`)
preserves `action`, `data` and any present `id`/`token` exactly, and fills
absent `data` with `null` and absent `id`/`token` with the empty string. -/
theorem codec_decode_reencode_roundtrip (m : WireMsg) (h : m.WF) :
    ∃ a d i t,
      mkSockRequest (some m.toJVal) = .ok ⟨false, .str a, d, .str i, .str t⟩ ∧
      Response000.generateGenericMessage a d i t =
        ⟨m.action, some (m.data.getD .null), some (m.id.getD (.str "")),
          some (m.token.getD (.str ""))⟩ := by
  obtain ⟨s, hs⟩ := h.action_str
  rcases hd : m.data with _ | v
  case none =>
    rcases hi : m.id with _ | iv
    case none =>
      rcases htk : m.token with _ | tv
      case none =>
        refine ⟨s, .null, "", "", ?_, ?_⟩ <;>
          simp [mkSockRequest, WireMsg.toJVal, optField, hs, hd, hi, htk, JVal.get,
            List.lookup, JVal.nullish, exceptOkBind, Response000.generateGenericMessage,
            jfield]
      case some =>
        obtain ⟨st, hst⟩ := h.token_str tv htk
        subst hst
        refine ⟨s, .null, "", st, ?_, ?_⟩ <;>
          simp [mkSockRequest, WireMsg.toJVal, optField, hs, hd, hi, htk, JVal.get,
            List.lookup, JVal.nullish, exceptOkBind, Response000.generateGenericMessage,
            jfield]
    case some =>
      obtain ⟨si, hsi⟩ := h.id_str iv hi
      subst hsi
      rcases htk : m.token with _ | tv
      case none =>
        refine ⟨s, .null, si, "", ?_, ?_⟩ <;>
          simp [mkSockRequest, WireMsg.toJVal, optField, hs, hd, hi, htk, JVal.get,
            List.lookup, JVal.nullish, exceptOkBind, Response000.generateGenericMessage,
            jfield]
      case some =>
        obtain ⟨st, hst⟩ := h.token_str tv htk
        subst hst
        refine ⟨s, .null, si, st, ?_, ?_⟩ <;>
          simp [mkSockRequest, WireMsg.toJVal, optField, hs, hd, hi, htk, JVal.get,
            List.lookup, JVal.nullish, exceptOkBind, Response000.generateGenericMessage,
            jfield]
  case some =>
    have hv : v.nullish .null = v := nullish_null_of_ne_undefined v (h.data_json v hd)
    have hjv : jfield v = some v := jfield_of_ne_undefined v (h.data_json v hd)
    rcases hi : m.id with _ | iv
    case none =>
      rcases htk : m.token with _ | tv
      case none =>
        refine ⟨s, v, "", "", ?_, ?_⟩ <;>
          simp [mkSockRequest, WireMsg.toJVal, optField, hs, hd, hi, htk, JVal.get,
            List.lookup, JVal.nullish, exceptOkBind, Response000.generateGenericMessage,
            jfield, hv, hjv] <;> first | exact hv | exact hjv
      case some =>
        obtain ⟨st, hst⟩ := h.token_str tv htk
        subst hst
        refine ⟨s, v, "", st, ?_, ?_⟩ <;>
          simp [mkSockRequest, WireMsg.toJVal, optField, hs, hd, hi, htk, JVal.get,
            List.lookup, JVal.nullish, exceptOkBind, Response000.generateGenericMessage,
            jfield, hv, hjv] <;> first | exact hv | exact hjv
    case some =>
      obtain ⟨si, hsi⟩ := h.id_str iv hi
      subst hsi
      rcases htk : m.token with _ | tv
      case none =>
        refine ⟨s, v, si, "", ?_, ?_⟩ <;>
          simp [mkSockRequest, WireMsg.toJVal, optField, hs, hd, hi, htk, JVal.get,
            List.lookup, JVal.nullish, exceptOkBind, Response000.generateGenericMessage,
            jfield, hv, hjv] <;> first | exact hv | exact hjv
      case some =>
        obtain ⟨st, hst⟩ := h.token_str tv htk
        subst hst
        refine ⟨s, v, si, st, ?_, ?_⟩ <;>
          simp [mkSockRequest, WireMsg.toJVal, optField, hs, hd, hi, htk, JVal.get,
            List.lookup, JVal.nullish, exceptOkBind, Response000.generateGenericMessage,
            jfield, hv, hjv] <;> first | exact hv | exact hjv

/-- C9 witness: a message with `action`, `data` and `id` present and
`token` absent round-trips with `token` filled by the empty string. -/
theorem codec_decode_reencode_roundtrip_witness :
    demoWire.WF ∧
    (∃ a d i t,
      mkSockRequest (some demoWire.toJVal) = .ok ⟨false, .str a, d, .str i, .str t⟩ ∧
      Response000.generateGenericMessage a d i t =
        ⟨demoWire.action, some (demoWire.data.getD .null),
          some (demoWire.id.getD (.str "")),
          some (demoWire.token.getD (.str ""))⟩) := by
  have hwf : demoWire.WF := by
    refine ⟨⟨"offer", rfl⟩, ?_, ?_, ?_⟩ <;> simp [demoWire]
  exact ⟨hwf, codec_decode_reencode_roundtrip demoWire hwf⟩
